import Mathlib

/-!
Verification of the football-news-db request-governance core against its
specification.  The Python sources are shallowly embedded as Lean functions:
machine integers become `Nat`/`Int`, the Redis hash backing the sliding-window
rate limiter becomes a function `Int → Nat` (absent fields read as 0, exactly
as `hget`-returning-`None` is treated by the code), and fallible paths are
made explicit.
-/

set_option maxRecDepth 10000
set_option maxHeartbeats 1000000

namespace FootballNewsDB

/-! ### Rate limiter (src/api/middleware/rate_limiter.py) -/

/-- User tiers: the keys of `RateLimitConfig.RATE_LIMITS`. -/
inductive Tier
  | free
  | premium
  | admin
deriving DecidableEq, Repr

/-- `RateLimitConfig.RATE_LIMITS`: requests per day for each tier. -/
def RATE_LIMITS : Tier → Nat
  | .free => 50
  | .premium => 500
  | .admin => 10000

/-- `RateLimitConfig.WINDOW_DURATION`: sliding window duration in seconds. -/
def WINDOW_DURATION : Nat := 24 * 60 * 60

/-- `RateLimitConfig.SUB_WINDOWS`: number of sub-windows. -/
def SUB_WINDOWS : Nat := 24

/-- `RateLimitConfig.SUB_WINDOW_DURATION`. -/
def SUB_WINDOW_DURATION : Nat := WINDOW_DURATION / SUB_WINDOWS

/-- The Redis hash `rate_limit:{user_id}`: sub-window start timestamp ↦ request
count.  A field that is absent reads as 0 (`hget` returns `None` and the code
skips it), so the hash is modelled as a total function into `Nat`. -/
def RLStore : Type := Int → Nat

/-- `hincrby base_key (str current_window) 1`. -/
def hincrby (s : RLStore) (w : Int) : RLStore :=
  fun f => if f = w then s f + 1 else s f

/-- `_cleanup_old_windows`: delete every field strictly older than
`current_window - WINDOW_DURATION`. -/
def cleanup_old_windows (s : RLStore) (currentWindow : Int) : RLStore :=
  fun f => if f < currentWindow - (WINDOW_DURATION : Int) then 0 else s f

/-- The summation loop of `check_rate_limit`: total requests over the 24
sub-windows `window_start + i * SUB_WINDOW_DURATION`,
`window_start = current_window - WINDOW_DURATION + SUB_WINDOW_DURATION`. -/
def windowSum (s : RLStore) (currentWindow : Int) : Nat :=
  ∑ i ∈ Finset.range SUB_WINDOWS,
    s (currentWindow - (WINDOW_DURATION : Int) + (SUB_WINDOW_DURATION : Int)
        + (i : Int) * (SUB_WINDOW_DURATION : Int))

/-- `RateLimitStatistics`: process-local counters. -/
structure RateLimitStatistics where
  total_requests : Nat
  blocked_requests : Nat
  requests_by_tier : Tier → Nat
  blocked_by_tier : Tier → Nat

/-- `RateLimitStatistics.record_request`. -/
def record_request (st : RateLimitStatistics) (tier : Tier) (blocked : Bool) :
    RateLimitStatistics where
  total_requests := st.total_requests + 1
  requests_by_tier := fun t =>
    if t = tier then st.requests_by_tier t + 1 else st.requests_by_tier t
  blocked_requests :=
    if blocked then st.blocked_requests + 1 else st.blocked_requests
  blocked_by_tier := fun t =>
    if blocked && (t = tier) then st.blocked_by_tier t + 1 else st.blocked_by_tier t

/-- The `rate_limit_info` dictionary returned by `check_rate_limit`.  On the
error path the code returns a dictionary without the usage keys, hence the
`Option` fields. -/
structure RateLimitInfo where
  allowed : Bool
  tier : Tier
  limit : Nat
  current_usage : Option Nat
  remaining : Option Nat
  error : Bool

/-- Result of one `check_rate_limit` call: the returned pair together with the
store and statistics as left behind by the call. -/
structure CheckResult where
  allowed : Bool
  info : RateLimitInfo
  store : RLStore
  stats : RateLimitStatistics

/-- `SlidingWindowRateLimiter.check_rate_limit` for identity with tier `tier`
at current sub-window start `w`.  `storeFails = true` injects a raising store
operation inside the `try` block (the usage read / increment / expire; the
exceptions of `_cleanup_old_windows` are swallowed inside that helper and do
not reach this handler): control jumps to the `except` branch, which returns
`allowed = True` with an `error` entry and — because `record_request` sits at
the end of the `try` block — leaves the statistics untouched. -/
def check_rate_limit (storeFails : Bool) (tier : Tier) (w : Int)
    (s : RLStore) (st : RateLimitStatistics) : CheckResult :=
  let rate_limit := RATE_LIMITS tier
  let s1 := cleanup_old_windows s w
  if storeFails then
    { allowed := true
      info := { allowed := true, tier := tier, limit := rate_limit,
                current_usage := none, remaining := none, error := true }
      store := s1
      stats := st }
  else
    let total_requests := windowSum s1 w
    let is_allowed : Bool := total_requests < rate_limit
    let s2 := if is_allowed then hincrby s1 w else s1
    { allowed := is_allowed
      info := { allowed := is_allowed, tier := tier, limit := rate_limit,
                current_usage := some (total_requests + (if is_allowed then 1 else 0)),
                remaining := some (rate_limit - total_requests - (if is_allowed then 1 else 0)),
                error := false }
      store := s2
      stats := record_request st tier (!is_allowed) }

/-- A sequence of (non-failing) rate-limit checks at the given sub-window
starts, threading store and statistics; returns the final store and the number
of admitted requests. -/
def runChecks (tier : Tier) (s : RLStore) (st : RateLimitStatistics) :
    List Int → RLStore × Nat
  | [] => (s, 0)
  | w :: ws =>
    let r := check_rate_limit false tier w s st
    let rest := runChecks tier r.store r.stats ws
    (rest.1, (if r.allowed then 1 else 0) + rest.2)

/-! User-tier management (`set_user_tier` / `get_user_tier`).  The tier store
maps `user_tier:{user_id}` values; tiers arrive as raw strings and are
validated against the keys of `RATE_LIMITS`. -/

/-- The key set of the `RATE_LIMITS` dictionary, as an association list from
tier name to daily quota. -/
def RATE_LIMITS_TABLE : List (String × Nat) :=
  [("free", 50), ("premium", 500), ("admin", 10000)]

/-- The tier store: `user_id ↦` stored tier string (if any). -/
def TierStore : Type := String → Option String

/-- `SlidingWindowRateLimiter.set_user_tier`: reject tiers that are not keys of
`RATE_LIMITS` (the `ValueError` is caught by the surrounding handler, which
returns `False`); otherwise store the tier and return `True`. -/
def set_user_tier (ts : TierStore) (user_id tier : String) : Bool × TierStore :=
  if (RATE_LIMITS_TABLE.lookup tier).isSome then
    (true, fun u => if u = user_id then some tier else ts u)
  else
    (false, ts)

/-- `SlidingWindowRateLimiter.get_user_tier`: the stored tier, or the default
tier `"free"` when absent. -/
def get_user_tier (ts : TierStore) (user_id : String) : String :=
  (ts user_id).getD "free"

/-- The quota a subsequent `check_rate_limit` would use for an identity:
`RATE_LIMITS[get_user_tier user]`. -/
def quota_for (ts : TierStore) (user_id : String) : Option Nat :=
  RATE_LIMITS_TABLE.lookup (get_user_tier ts user_id)

/-! ### Query classifier (src/db/services/llm_service.py, `QueryClassifier`)

The classifier lowercases the query and runs `re.search` for each pattern.
Every pattern is `\b(alt₁|alt₂|…)\b` over literal alternatives (optional
trailing `s?` expanded into both forms), except the last personalised pattern
`\bfpl.*(recommend|suggest|advice|team|squad)\b`.  Word-boundary search is
embedded directly: a literal occurs with a non-word character (or the string
edge) on both sides; `.` does not cross a newline. -/

/-- Python `\w`: letters, digits and underscore. -/
def isWordChar (c : Char) : Bool := c.isAlphanum || c = '_'

/-- A `\b` holds before the current position given the previous character. -/
def boundaryOk : Option Char → Bool
  | none => true
  | some c => !isWordChar c

/-- The literal `lit` occurs at the head of `cs` with a `\b` after it. -/
def litHere (lit : List Char) (cs : List Char) : Bool :=
  lit.isPrefixOf cs &&
    (match cs.drop lit.length with
     | [] => true
     | c :: _ => !isWordChar c)

/-- Scan for `\b lit \b`, tracking the previous character. -/
def wbSearchAux (lit : List Char) : Option Char → List Char → Bool
  | prev, [] => boundaryOk prev && litHere lit []
  | prev, c :: rest =>
    (boundaryOk prev && litHere lit (c :: rest)) || wbSearchAux lit (some c) rest

/-- `re.search(r"\b" ++ lit ++ r"\b", cs)` for a literal alternative. -/
def wbSearch (lit : String) (cs : List Char) : Bool :=
  wbSearchAux lit.toList none cs

/-- One regex pattern `\b(alt₁|alt₂|…)\b`: the list of its literal
alternatives. -/
abbrev RegexAlt := List String

/-- Whether a pattern (an alternation) matches somewhere in the text. -/
def patternMatches (alts : RegexAlt) (cs : List Char) : Bool :=
  alts.any (fun l => wbSearch l cs)

/-- Number of patterns of a group that match (the `sum(1 for pattern in … if
re.search(…))` loops). -/
def countMatches (group : List RegexAlt) (cs : List Char) : Nat :=
  (group.filter (fun p => patternMatches p cs)).length

/-- `QueryClassifier.FACTUAL_PATTERNS`, alternations expanded. -/
def FACTUAL_PATTERNS : List RegexAlt :=
  [["stat", "stats", "statistic", "statistics", "record", "career", "age",
    "nationality", "position", "height", "weight"],
   ["goal", "goals", "assist", "assists", "appearance", "appearances",
    "minute", "minutes", "card", "cards", "save", "saves"],
   ["born", "birth", "club", "team", "league", "transfer", "contract"],
   ["when", "where", "how many", "what position", "which team"]]

/-- `QueryClassifier.NEWS_PATTERNS`. -/
def NEWS_PATTERNS : List RegexAlt :=
  [["news", "latest", "recent", "today", "yesterday", "this week", "update"],
   ["injury", "injured", "transfer", "signed", "rumor", "report"],
   ["match", "game", "fixture", "result", "score", "win", "loss", "draw"],
   ["happening", "occurred", "announced", "confirmed"]]

/-- `QueryClassifier.OPINION_PATTERNS`. -/
def OPINION_PATTERNS : List RegexAlt :=
  [["think", "opinion", "believe", "feel", "rate", "rank", "compare"],
   ["best", "worst", "better", "worse", "underrated", "overrated"],
   ["should", "would", "could", "might", "analysis", "tactical"],
   ["prediction", "forecast", "expect", "likely", "probably"]]

/-- The word alternatives of the fourth personalised pattern. -/
def FPL_WORDS : List String := ["recommend", "suggest", "advice", "team", "squad"]

/-- After `fpl`, the gap matched by `.*` may not cross a newline; at each
reachable position one of `FPL_WORDS` may match, with a trailing `\b`. -/
def fplTail : List Char → Bool
  | [] => false
  | c :: rest =>
    FPL_WORDS.any (fun w => litHere w.toList (c :: rest)) ||
      (c ≠ '\n' && fplTail rest)

/-- Scan for `\bfpl.*(recommend|suggest|advice|team|squad)\b`. -/
def fplSearchAux : Option Char → List Char → Bool
  | _, [] => false
  | prev, c :: rest =>
    (boundaryOk prev && "fpl".toList.isPrefixOf (c :: rest) &&
        fplTail ((c :: rest).drop 3)) ||
      fplSearchAux (some c) rest

/-- `re.search` for the fourth personalised pattern. -/
def fplSearch (cs : List Char) : Bool := fplSearchAux none cs

/-- `QueryClassifier.PERSONALIZED_PATTERNS`: any of the four patterns
matches. -/
def personalizedMatch (cs : List Char) : Bool :=
  patternMatches ["my team", "my squad", "recommend", "suggest", "advice"] cs ||
  patternMatches ["should i", "help me", "what do you think i"] cs ||
  patternMatches ["for me", "in my", "my budget", "my league"] cs ||
  fplSearch cs

/-- The body of `QueryClassifier.classify_query` after `query_lower =
query.lower()`. -/
def classifyLower (query_lower : List Char) : String :=
  if personalizedMatch query_lower then "no_cache"
  else
    let factual_matches := countMatches FACTUAL_PATTERNS query_lower
    let news_matches := countMatches NEWS_PATTERNS query_lower
    let opinion_matches := countMatches OPINION_PATTERNS query_lower
    let max_matches := max factual_matches (max news_matches opinion_matches)
    if max_matches = 0 then "opinion"
    else if factual_matches = max_matches then "factual"
    else if news_matches = max_matches then "news"
    else "opinion"

/-- `QueryClassifier.classify_query`. -/
def classify_query (query : String) : String :=
  classifyLower (query.toList.map Char.toLower)

/-! ### SHA-256 (`hashlib.sha256(...).hexdigest()`)

A direct implementation over byte lists (`Nat` values < 256), with 32-bit
words as `Nat` reduced mod `2^32`. -/

/-- Rotate a 32-bit word right by `n`. -/
def rotr (n x : Nat) : Nat := x / 2 ^ n + x % 2 ^ n * 2 ^ (32 - n)

/-- SHA-256 `Σ₀`. -/
def bsig0 (x : Nat) : Nat := rotr 2 x ^^^ rotr 13 x ^^^ rotr 22 x

/-- SHA-256 `Σ₁`. -/
def bsig1 (x : Nat) : Nat := rotr 6 x ^^^ rotr 11 x ^^^ rotr 25 x

/-- SHA-256 `σ₀`. -/
def ssig0 (x : Nat) : Nat := rotr 7 x ^^^ rotr 18 x ^^^ (x >>> 3)

/-- SHA-256 `σ₁`. -/
def ssig1 (x : Nat) : Nat := rotr 17 x ^^^ rotr 19 x ^^^ (x >>> 10)

/-- SHA-256 `Ch`, with 32-bit complement. -/
def shaCh (e f g : Nat) : Nat := (e &&& f) ^^^ ((4294967295 ^^^ e) &&& g)

/-- SHA-256 `Maj`. -/
def shaMaj (a b c : Nat) : Nat := (a &&& b) ^^^ (a &&& c) ^^^ (b &&& c)

/-- The 64 SHA-256 round constants. -/
def K_CONSTANTS : List Nat :=
  [1116352408, 1899447441, 3049323471, 3921009573, 961987163,
   1508970993, 2453635748, 2870763221, 3624381080, 310598401,
   607225278, 1426881987, 1925078388, 2162078206, 2614888103,
   3248222580, 3835390401, 4022224774, 264347078, 604807628,
   770255983, 1249150122, 1555081692, 1996064986, 2554220882,
   2821834349, 2952996808, 3210313671, 3336571891, 3584528711,
   113926993, 338241895, 666307205, 773529912, 1294757372,
   1396182291, 1695183700, 1986661051, 2177026350, 2456956037,
   2730485921, 2820302411, 3259730800, 3345764771, 3516065817,
   3600352804, 4094571909, 275423344, 430227734, 506948616,
   659060556, 883997877, 958139571, 1322822218, 1537002063,
   1747873779, 1955562222, 2024104815, 2227730452, 2361852424,
   2428436474, 2756734187, 3204031479, 3329325298]

/-- The SHA-256 initial hash value. -/
def H_INITIAL : List Nat :=
  [1779033703, 3144134277, 1013904242, 2773480762,
   1359893119, 2600822924, 528734635, 1541459225]

/-- The first 16 schedule words of a 64-byte block (big-endian). -/
def w16 (block : List Nat) : List Nat :=
  (List.range 16).map (fun i =>
    block.getD (4 * i) 0 * 16777216 + block.getD (4 * i + 1) 0 * 65536 +
      block.getD (4 * i + 2) 0 * 256 + block.getD (4 * i + 3) 0)

/-- Extend the schedule by `n` further words. -/
def extendSchedule (w : List Nat) : Nat → List Nat
  | 0 => w
  | n + 1 =>
    let w1 := extendSchedule w n
    w1 ++ [(ssig1 (w1.getD (n + 14) 0) + w1.getD (n + 9) 0 +
            ssig0 (w1.getD (n + 1) 0) + w1.getD n 0) % 4294967296]

/-- The 64-word message schedule of one block. -/
def schedule (block : List Nat) : List Nat := extendSchedule (w16 block) 48

/-- One compression round on the 8-word state. -/
def compressStep (st : List Nat) (kw : Nat × Nat) : List Nat :=
  match st with
  | [a, b, c, d, e, f, g, h] =>
    let t1 := (h + bsig1 e + shaCh e f g + kw.1 + kw.2) % 4294967296
    let t2 := (bsig0 a + shaMaj a b c) % 4294967296
    [(t1 + t2) % 4294967296, a, b, c, (d + t1) % 4294967296, e, f, g]
  | other => other

/-- Compress one 64-byte block into the running hash value. -/
def compressBlock (h : List Nat) (block : List Nat) : List Nat :=
  let st := (List.zip K_CONSTANTS (schedule block)).foldl compressStep h
  List.zipWith (fun x y => (x + y) % 4294967296) h st

/-- Split a byte list into 64-byte blocks. -/
def toBlocks (bs : List Nat) : List (List Nat) :=
  match hbs : bs with
  | [] => []
  | _ :: _ =>
    have : (bs.drop 64).length < bs.length := by
      rw [List.length_drop]; subst hbs; simp; omega
    bs.take 64 :: toBlocks (bs.drop 64)
termination_by bs.length

/-- SHA-256 padding: `0x80`, zeros to 56 mod 64, 8-byte big-endian bit
length. -/
def sha256pad (msg : List Nat) : List Nat :=
  let L := msg.length
  msg ++ [128] ++ List.replicate ((119 - L % 64) % 64) 0 ++
    (List.range 8).map (fun i => (8 * L) >>> (8 * (7 - i)) % 256)

/-- The eight 32-bit words of the SHA-256 digest of a byte list. -/
def sha256words (msg : List Nat) : List Nat :=
  (toBlocks (sha256pad msg)).foldl compressBlock H_INITIAL

/-- Lowercase hex digit. -/
def hexDigit (n : Nat) : Char :=
  if n < 10 then Char.ofNat (48 + n) else Char.ofNat (87 + n)

/-- A 32-bit word as 8 hex characters. -/
def wordHex (x : Nat) : List Char :=
  (List.range 8).map (fun i => hexDigit ((x >>> (4 * (7 - i))) % 16))

/-- UTF-8 encoding of one code point (Python `str.encode()`). -/
def utf8Char (n : Nat) : List Nat :=
  if n < 128 then [n]
  else if n < 2048 then [192 + n / 64, 128 + n % 64]
  else if n < 65536 then [224 + n / 4096, 128 + n / 64 % 64, 128 + n % 64]
  else [240 + n / 262144, 128 + n / 4096 % 64, 128 + n / 64 % 64, 128 + n % 64]

/-- UTF-8 encoding of a string. -/
def utf8Encode (s : String) : List Nat :=
  (s.toList.map (fun c => utf8Char c.toNat)).flatten

/-- `hashlib.sha256(s.encode()).hexdigest()`. -/
def sha256hex (s : String) : String :=
  String.mk ((sha256words (utf8Encode s)).map wordHex).flatten

/-! ### Response cache (src/db/services/llm_service.py, `ResponseCacheManager`) -/

/-- One message of the conversation memory: a `HumanMessage` (`H`) or any
other message type (`A`), with its content. -/
structure ChatMsg where
  isHuman : Bool
  content : String

/-- `ResponseCacheManager._get_conversation_context`: the last ≤ 3 messages,
each as `T:content[0:100]`, joined by `|`. -/
def get_conversation_context (messages : List ChatMsg) : String :=
  if messages.isEmpty then ""
  else
    let recent :=
      if messages.length > 3 then messages.drop (messages.length - 3) else messages
    String.intercalate "|"
      (recent.map (fun m =>
        (if m.isHuman then "H" else "A") ++ ":" ++ String.mk (m.content.toList.take 100)))

/-- `ResponseCacheManager._generate_cache_key`. -/
def generate_cache_key (message conversation_context category : String) : String :=
  "llm_cache_" ++ category ++ ":" ++
    sha256hex (message ++ "|" ++ conversation_context ++ "|" ++ category)

/-- `ResponseCacheManager.CACHE_TTL` (seconds by category). -/
def CACHE_TTL : List (String × Nat) :=
  [("factual", 6 * 3600), ("news", 2 * 3600), ("opinion", 24 * 3600), ("no_cache", 0)]

/-- `ResponseCacheManager._get_ttl_for_query` (with the default
`default_ttl_hours = 24`, i.e. 86400 seconds, for unknown categories). -/
def get_ttl_for_query (query : String) : Nat × String :=
  let category := classify_query query
  ((CACHE_TTL.lookup category).getD 86400, category)

/-- `CacheStatistics` counters (response-time samples, which are wall-clock
measurements, are not modelled). -/
structure CacheStatistics where
  hits : Nat
  misses : Nat
  total_requests : Nat
  cache_saves : Nat
  cache_errors : Nat
  no_cache_requests : Nat
  query_categories : String → Nat

/-- Increment one `query_categories` counter. -/
def bumpCategory (qc : String → Nat) (key : String) : String → Nat :=
  fun k => if k = key then qc k + 1 else qc k

/-- `CacheStatistics.record_hit`. -/
def record_hit (st : CacheStatistics) (category : String) : CacheStatistics :=
  { st with hits := st.hits + 1, total_requests := st.total_requests + 1,
            query_categories :=
              if category ≠ "" then bumpCategory st.query_categories (category ++ "_hit")
              else st.query_categories }

/-- `CacheStatistics.record_miss`. -/
def record_miss (st : CacheStatistics) (category : String) : CacheStatistics :=
  { st with misses := st.misses + 1, total_requests := st.total_requests + 1,
            query_categories :=
              if category ≠ "" then bumpCategory st.query_categories (category ++ "_miss")
              else st.query_categories }

/-- `CacheStatistics.record_no_cache`. -/
def record_no_cache (st : CacheStatistics) (category : String) : CacheStatistics :=
  { st with no_cache_requests := st.no_cache_requests + 1,
            total_requests := st.total_requests + 1,
            query_categories :=
              if category ≠ "" then bumpCategory st.query_categories (category ++ "_no_cache")
              else st.query_categories }

/-- `CacheStatistics.record_save`. -/
def record_save (st : CacheStatistics) (category : String) : CacheStatistics :=
  { st with cache_saves := st.cache_saves + 1,
            query_categories :=
              if category ≠ "" then bumpCategory st.query_categories (category ++ "_saved")
              else st.query_categories }

/-- The JSON record stored under a cache key (the wall-clock timestamp is not
modelled). -/
structure CacheEntry where
  response : String
  message : String
  context : String
  category : String
  ttl : Nat

/-- The Redis keyspace visible to the response cache. -/
def CacheStore : Type := String → Option CacheEntry

/-- A store operation issued by the response cache. -/
inductive CacheOp
  | get (key : String)
  | setex (key : String) (ttl : Nat)

/-- `ResponseCacheManager.get_cached_response` (with a configured store):
returns the cached response (if any), the updated statistics, and the list of
store operations issued. -/
def get_cached_response (store : CacheStore) (stats : CacheStatistics)
    (message : String) (memory : List ChatMsg) :
    Option String × CacheStatistics × List CacheOp :=
  let category := (get_ttl_for_query message).2
  if category = "no_cache" then
    (none, record_no_cache stats category, [])
  else
    let context := get_conversation_context memory
    let cache_key := generate_cache_key message context category
    match store cache_key with
    | some entry => (some entry.response, record_hit stats category, [.get cache_key])
    | none => (none, record_miss stats category, [.get cache_key])

/-- `ResponseCacheManager.cache_response` (with a configured store): returns
the updated store, statistics, and the store operations issued. -/
def cache_response (store : CacheStore) (stats : CacheStatistics)
    (message response : String) (memory : List ChatMsg) :
    CacheStore × CacheStatistics × List CacheOp :=
  let tc := get_ttl_for_query message
  let ttl := tc.1
  let category := tc.2
  if category = "no_cache" then (store, stats, [])
  else
    let context := get_conversation_context memory
    let cache_key := generate_cache_key message context category
    (fun k => if k = cache_key then
        some { response := response, message := message, context := context,
               category := category, ttl := ttl }
      else store k,
     record_save stats category, [.setex cache_key ttl])

/-! ### Enhanced search ranker (src/db/services/enhanced_search_service.py,
src/config/search_config.py)

Float arithmetic is modelled over `ℚ`; `math.exp` is transcendental and enters
scoring only through its value, so the scoring functions are parameterised by
a function `expQ : ℚ → ℚ` standing for it.  `(now - published_date).days` is
abstracted as the article's `days_old` field (`none` when the published date
is missing). -/

/-- The article fields read by the scoring functions. -/
structure NewsArticle where
  id : Nat
  title : String
  content : String
  source : String
  days_old : Option Int
  sentiment_score : Option ℚ

/-- One vector-search candidate joined with its article data. -/
structure RankCandidate where
  semantic_score : ℚ
  article : NewsArticle

/-- `SearchConfig.SOURCE_WEIGHTS`. -/
def SOURCE_WEIGHTS : List (String × ℚ) :=
  [("BBC Sport", 1), ("Sky Sports", 19/20), ("Guardian", 19/20),
   ("Telegraph", 9/10), ("Fantasy Football Scout", 17/20), ("ESPN", 4/5)]

/-- `SearchConfig.DEFAULT_SOURCE_WEIGHT`. -/
def DEFAULT_SOURCE_WEIGHT : ℚ := 7/10

/-- `SearchConfig.TEMPORAL_DECAY_RATE`. -/
def TEMPORAL_DECAY_RATE : ℚ := 1/10

/-- `SearchConfig.HYBRID_DECAY_RATE`. -/
def HYBRID_DECAY_RATE : ℚ := 1/20

/-- `SearchConfig.DEFAULT_TIME_DECAY`. -/
def DEFAULT_TIME_DECAY : ℚ := 1/2

/-- `SearchConfig.OPTIMAL_CONTENT_LENGTH_MIN`. -/
def OPTIMAL_CONTENT_LENGTH_MIN : Nat := 500

/-- `SearchConfig.OPTIMAL_CONTENT_LENGTH_MAX`. -/
def OPTIMAL_CONTENT_LENGTH_MAX : Nat := 2000

/-- `SearchConfig.MIN_TITLE_LENGTH`. -/
def MIN_TITLE_LENGTH : Nat := 20

/-- `SearchConfig.MAX_TITLE_LENGTH`. -/
def MAX_TITLE_LENGTH : Nat := 150

/-- `SearchConfig.CLICKBAIT_PENALTY`. -/
def CLICKBAIT_PENALTY : ℚ := 7/10

/-- `SearchConfig.NEUTRAL_SENTIMENT_BASE`. -/
def NEUTRAL_SENTIMENT_BASE : ℚ := 1/2

/-- `SearchConfig.POSITIVE_SENTIMENT_MULTIPLIER`. -/
def POSITIVE_SENTIMENT_MULTIPLIER : ℚ := 3/10

/-- `SearchConfig.NEGATIVE_SENTIMENT_MULTIPLIER`. -/
def NEGATIVE_SENTIMENT_MULTIPLIER : ℚ := 1/5

/-- `SearchConfig.TITLE_MATCH_WEIGHT`. -/
def TITLE_MATCH_WEIGHT : ℚ := 2

/-- Plain substring test (Python `needle in haystack`). -/
def containsSub (needle : List Char) : List Char → Bool
  | [] => needle.isEmpty
  | c :: rest => needle.isPrefixOf (c :: rest) || containsSub needle rest

/-- `str.split()` with no argument: split on whitespace runs, no empty
parts. -/
def splitWsAux : List Char → List Char → List (List Char)
  | cur, [] => if cur.isEmpty then [] else [cur.reverse]
  | cur, c :: rest =>
    if c.isWhitespace then
      if cur.isEmpty then splitWsAux [] rest else cur.reverse :: splitWsAux [] rest
    else splitWsAux (c :: cur) rest

/-- `str.split()`. -/
def splitWs (cs : List Char) : List (List Char) := splitWsAux [] cs

/-- The word alternatives of the clickbait digit pattern. -/
def CLICK_WORDS : List String := ["things", "ways", "reasons", "facts"]

/-- After `\d+\s`, further whitespace may follow before one of
`CLICK_WORDS`. -/
def wsThenWord : List Char → Bool
  | [] => false
  | c :: rest =>
    CLICK_WORDS.any (fun w => w.toList.isPrefixOf (c :: rest)) ||
      (c.isWhitespace && wsThenWord rest)

/-- After at least one digit: more digits, or ≥ 1 whitespace then a click
word. -/
def afterDigits : List Char → Bool
  | [] => false
  | c :: rest => (c.isDigit && afterDigits rest) || (c.isWhitespace && wsThenWord rest)

/-- `re.search(r"\d+\s+(things|ways|reasons|facts)", cs)`. -/
def clickbaitDigits : List Char → Bool
  | [] => false
  | c :: rest => (c.isDigit && afterDigits rest) || clickbaitDigits rest

/-- ASCII apostrophe. -/
def APOSTROPHE : Char := Char.ofNat 39

/-- The literal clickbait patterns of `SearchConfig.CLICKBAIT_PATTERNS`. -/
def CLICKBAIT_LITERAL_PATTERNS : List String :=
  ["you won" ++ String.mk [APOSTROPHE] ++ "t believe", "shocking", "amazing", "incredible"]

/-- Whether any pattern of `SearchConfig.CLICKBAIT_PATTERNS` matches the
(lowercased) title. -/
def clickbaitMatch (title_lower : List Char) : Bool :=
  clickbaitDigits title_lower ||
    CLICKBAIT_LITERAL_PATTERNS.any (fun p => containsSub p.toList title_lower)

/-- The `length_score` computed by
`EnhancedSearchService._calculate_content_quality_score`. -/
def lengthScoreOf (a : NewsArticle) : ℚ :=
  let content_length := a.content.length
  if OPTIMAL_CONTENT_LENGTH_MIN ≤ content_length ∧
      content_length ≤ OPTIMAL_CONTENT_LENGTH_MAX then 1
  else if content_length < OPTIMAL_CONTENT_LENGTH_MIN then
    (content_length : ℚ) / (OPTIMAL_CONTENT_LENGTH_MIN : ℚ)
  else
    max (1/2) ((OPTIMAL_CONTENT_LENGTH_MAX : ℚ) / (content_length : ℚ))

/-- The `title_score` computed by
`EnhancedSearchService._calculate_content_quality_score`: base 1.0, set to
0.8 when the title length leaves [MIN_TITLE_LENGTH, MAX_TITLE_LENGTH],
multiplied by the clickbait penalty on the first pattern match. -/
def titleScoreOf (a : NewsArticle) : ℚ :=
  let title_length := a.title.length
  let title_base : ℚ :=
    if title_length < MIN_TITLE_LENGTH ∨ title_length > MAX_TITLE_LENGTH then 4/5 else 1
  if clickbaitMatch (a.title.toList.map Char.toLower) then
    title_base * CLICKBAIT_PENALTY
  else title_base

/-- `EnhancedSearchService._calculate_content_quality_score`. -/
def content_quality_score (a : NewsArticle) : ℚ :=
  (lengthScoreOf a + titleScoreOf a) / 2

/-- `EnhancedSearchService._calculate_text_relevance_boost`.  `query_terms` is
a Python `set`, so terms are deduplicated; an empty query yields an empty term
set and the division raises `ZeroDivisionError`, modelled as `none`. -/
def text_relevance_boost (query : String) (a : NewsArticle) : Option ℚ :=
  let query_terms := (splitWs (query.toList.map Char.toLower)).dedup
  if query_terms.length = 0 then none
  else
    let title_text := a.title.toList.map Char.toLower
    let content_text := a.content.toList.map Char.toLower
    let title_matches := (query_terms.filter (fun t => containsSub t title_text)).length
    let title_boost := ((title_matches : ℚ) / (query_terms.length : ℚ)) * TITLE_MATCH_WEIGHT
    let content_matches := (query_terms.filter (fun t => containsSub t content_text)).length
    let content_boost := (content_matches : ℚ) / (query_terms.length : ℚ)
    some (min (title_boost + content_boost) 1)

/-- `EnhancedSearchService._calculate_sentiment_relevance`. -/
def sentiment_relevance (a : NewsArticle) : ℚ :=
  match a.sentiment_score with
  | none => NEUTRAL_SENTIMENT_BASE
  | some s =>
    if s ≥ 0 then NEUTRAL_SENTIMENT_BASE + s * POSITIVE_SENTIMENT_MULTIPLIER
    else NEUTRAL_SENTIMENT_BASE + s * NEGATIVE_SENTIMENT_MULTIPLIER

/-- Source credibility lookup with default. -/
def source_credibility (a : NewsArticle) : ℚ :=
  (SOURCE_WEIGHTS.lookup a.source).getD DEFAULT_SOURCE_WEIGHT

/-- `exp(-rate * days_old)`, or `DEFAULT_TIME_DECAY` without a date. -/
def time_decay (expQ : ℚ → ℚ) (rate : ℚ) (a : NewsArticle) : ℚ :=
  match a.days_old with
  | some d => expQ (-(rate * (d : ℚ)))
  | none => DEFAULT_TIME_DECAY

/-- The final score of one candidate under `_apply_relevance_scoring`:
`"semantic"`, `"temporal"`, `"engagement"`, `"hybrid"`, and the hybrid
fallback for unknown strategies.  Weights are those of
`SearchConfig.SCORING_WEIGHTS`. -/
def final_score (strategy : String) (expQ : ℚ → ℚ) (query : String)
    (r : RankCandidate) : Option ℚ :=
  if strategy = "semantic" then
    some (r.semantic_score * 1)
  else if strategy = "temporal" then
    (text_relevance_boost query r.article).map (fun tb =>
      r.semantic_score * (6/10) +
        time_decay expQ TEMPORAL_DECAY_RATE r.article * (3/10) + tb * (1/10))
  else if strategy = "engagement" then
    (text_relevance_boost query r.article).map (fun tb =>
      r.semantic_score * (5/10) + source_credibility r.article * (2/10) +
        content_quality_score r.article * (15/100) + tb * (1/10) +
        sentiment_relevance r.article * (5/100))
  else
    (text_relevance_boost query r.article).map (fun tb =>
      r.semantic_score * (4/10) +
        time_decay expQ HYBRID_DECAY_RATE r.article * (25/100) +
        source_credibility r.article * (15/100) + tb * (1/10) +
        content_quality_score r.article * (7/100) +
        sentiment_relevance r.article * (3/100))

/-- `EnhancedSearchService._apply_relevance_scoring`: score every candidate
in input order; a raised exception (`none`) aborts the whole call. -/
def apply_relevance_scoring (strategy : String) (expQ : ℚ → ℚ) (query : String) :
    List RankCandidate → Option (List (RankCandidate × ℚ))
  | [] => some []
  | r :: rest =>
    match final_score strategy expQ query r with
    | none => none
    | some sc =>
      match apply_relevance_scoring strategy expQ query rest with
      | none => none
      | some scored => some ((r, sc) :: scored)

/-- Stable insertion (descending by `key`): the new element `x` precedes every
element whose key is ≤ its own; since `x` is earlier in the input than the
already-sorted elements, equal keys keep input order. -/
def insertDescBy (key : α → ℚ) (x : α) : List α → List α
  | [] => [x]
  | y :: ys => if key x < key y then y :: insertDescBy key x ys else x :: y :: ys

/-- Stable descending sort: the model of Python's stable
`list.sort(key=…, reverse=True)`. -/
def sortDescBy (key : α → ℚ) : List α → List α
  | [] => []
  | x :: xs => insertDescBy key x (sortDescBy key xs)

/-- `EnhancedSearchService.enhanced_semantic_search` from the point where the
vector-search candidates have been joined with their article data: score,
sort descending on final score, truncate to `final_k`.  `none` models an
uncaught exception. -/
def enhanced_semantic_search (strategy : String) (expQ : ℚ → ℚ) (query : String)
    (vector_results : List RankCandidate) (final_k : Nat) :
    Option (List (RankCandidate × ℚ)) :=
  if vector_results.isEmpty then some []
  else
    (apply_relevance_scoring strategy expQ query vector_results).map
      (fun scored => (sortDescBy Prod.snd scored).take final_k)

/-! ### Vector-ingestion worker (src/db/services/vector_service.py) -/

/-- `Article.embedding_status`. -/
inductive EmbeddingStatus
  | pending
  | processing
  | completed
  | failed
deriving DecidableEq, Repr

/-- The article fields read and written by `process_single_article`. -/
structure DBArticle where
  id : Nat
  title : String
  content : String
  embedding_status : EmbeddingStatus
  content_hash : Option String
  vector_embedding : Option (List ℚ)
  search_vector_id : Option String
  sentiment_score : Option ℚ

/-- Positive word list of `_calculate_simple_sentiment`. -/
def POSITIVE_WORDS : List String :=
  ["win", "won", "victory", "champion", "excellent", "amazing", "great",
   "good", "success", "celebrate", "triumph", "outstanding", "brilliant",
   "fantastic", "superb", "perfect", "best", "incredible", "spectacular"]

/-- Negative word list of `_calculate_simple_sentiment`. -/
def NEGATIVE_WORDS : List String :=
  ["lose", "lost", "defeat", "failure", "terrible", "awful", "bad",
   "worst", "disaster", "disappointing", "poor", "injured", "injury",
   "suspended", "banned", "controversy", "scandal", "crisis", "problem"]

/-- `VectorService._calculate_simple_sentiment`: replace non-word,
non-whitespace characters by a space, split, count lexicon hits, normalise
and clamp to [-1, 1]. -/
def calculate_simple_sentiment (text : String) : ℚ :=
  let text_lower :=
    (text.toList.map Char.toLower).map
      (fun c => if isWordChar c || c.isWhitespace then c else ' ')
  let words := splitWs text_lower
  if words.isEmpty then 0
  else
    let positive_count :=
      (words.filter (fun w => POSITIVE_WORDS.any (fun p => p.toList = w))).length
    let negative_count :=
      (words.filter (fun w => NEGATIVE_WORDS.any (fun p => p.toList = w))).length
    if positive_count + negative_count = 0 then 0
    else
      let sentiment_score := ((positive_count : ℚ) - (negative_count : ℚ)) / (words.length : ℚ)
      max (-1) (min 1 (sentiment_score * 10))

/-- Side effects of one `process_single_article` run, in order. -/
inductive IngestOp
  | commit_processing
  | embed_request
  | pinecone_upsert
  | commit_completed
  | commit_failed

/-- `VectorService.process_single_article`.  The database fetch is abstracted
as an `Option DBArticle` argument; `embed_result` is the embedding provider's
answer (`none` = failure after retries) and `pinecone_ok` the upsert outcome.
Returns the success flag, the article as left in the database, and the side
effects performed. -/
def process_single_article (embed_result : Option (List ℚ)) (pinecone_ok : Bool)
    (article : Option DBArticle) : Bool × Option DBArticle × List IngestOp :=
  match article with
  | none => (false, none, [])
  | some a =>
    if a.embedding_status = .processing then (false, some a, [])
    else
      let content_text := a.title ++ "\n\n" ++ a.content
      let content_hash := sha256hex content_text
      if a.content_hash = some content_hash ∧ a.embedding_status = .completed ∧
          a.vector_embedding.isSome then
        (true, some a, [])
      else
        match embed_result with
        | none =>
          (false, some { a with embedding_status := .failed },
           [.commit_processing, .embed_request, .commit_failed])
        | some embedding =>
          let sentiment := calculate_simple_sentiment content_text
          if !pinecone_ok then
            (false, some { a with embedding_status := .failed },
             [.commit_processing, .embed_request, .pinecone_upsert, .commit_failed])
          else
            (true,
             some { a with vector_embedding := some embedding,
                           search_vector_id := some ("article_" ++ toString a.id),
                           content_hash := some content_hash,
                           sentiment_score := some sentiment,
                           embedding_status := .completed },
             [.commit_processing, .embed_request, .pinecone_upsert, .commit_completed])

/-! ### Concrete instances used by witnesses and counterexamples -/

/-- Fresh rate-limit statistics (as built by `RateLimitStatistics.__init__`). -/
def rlZeroStats : RateLimitStatistics :=
  { total_requests := 0, blocked_requests := 0,
    requests_by_tier := fun _ => 0, blocked_by_tier := fun _ => 0 }

/-- An empty usage store: no sub-window fields. -/
def emptyRLStore : RLStore := fun _ => 0

/-- Fresh cache statistics. -/
def cacheZeroStats : CacheStatistics :=
  { hits := 0, misses := 0, total_requests := 0, cache_saves := 0,
    cache_errors := 0, no_cache_requests := 0, query_categories := fun _ => 0 }

/-- An empty response-cache store. -/
def emptyCacheStore : CacheStore := fun _ => none

/-- An article with a one-character title and `n` characters of content, used
to sample the content-quality curve. -/
def c8Article (n : Nat) : NewsArticle :=
  { id := 0, title := "t", content := String.mk (List.replicate n 'a'),
    source := "", days_old := none, sentiment_score := none }

/-- A concrete candidate for the empty-query run. -/
def c9Candidate : RankCandidate :=
  { semantic_score := 4/5,
    article := { id := 1, title := "Arsenal beat Chelsea",
                 content := "Some words about the game.", source := "BBC Sport",
                 days_old := some 0, sentiment_score := some 0 } }

/-- Lower-credibility candidate placed first in the input order. -/
def espnCandidate : RankCandidate :=
  { semantic_score := 1/2,
    article := { id := 1, title := "Tottenham latest", content := "c1",
                 source := "ESPN", days_old := none, sentiment_score := none } }

/-- Higher-credibility candidate placed second in the input order. -/
def bbcCandidate : RankCandidate :=
  { semantic_score := 1/2,
    article := { id := 2, title := "Arsenal latest", content := "c2",
                 source := "BBC Sport", days_old := none, sentiment_score := none } }

/-- The article record as persisted by a fully successful ingestion run. -/
def updatedArticle (a : DBArticle) (emb : List ℚ) : DBArticle :=
  { a with vector_embedding := some emb,
           search_vector_id := some ("article_" ++ toString a.id),
           content_hash := some (sha256hex (a.title ++ "\n\n" ++ a.content)),
           sentiment_score :=
             some (calculate_simple_sentiment (a.title ++ "\n\n" ++ a.content)),
           embedding_status := .completed }

/-- A freshly stored article awaiting its first ingestion run. -/
def c7Article0 : DBArticle :=
  { id := 1, title := "a", content := "b", embedding_status := .pending,
    content_hash := none, vector_embedding := none, search_vector_id := none,
    sentiment_score := none }

/-- A usage store with 49 requests recorded in the sub-window starting at
epoch second 0. -/
def c1Store49 : RLStore := fun f => if f = 0 then 49 else 0

/-- A usage store with 50 requests recorded in the sub-window starting at
epoch second 0. -/
def c1Store50 : RLStore := fun f => if f = 0 then 50 else 0

/-- The category segment of a cache key: the characters between the fixed
`llm_cache_` namespace and the first `:`. -/
def keyCategory (k : String) : String :=
  String.mk ((k.data.drop 10).takeWhile (fun c => c ≠ ':'))

/-! ## Theorems -/

/-- **C10.** For every identity and every tier name outside the closed
enumeration `{free, premium, admin}`, `set_user_tier` returns `False` and
writes nothing to the store, so the identity's stored tier — and hence the
quota a subsequent rate-limit check would look up — is unchanged; for a valid
tier name it writes the tier and returns `True`. -/
theorem C10_set_user_tier_validation (ts : TierStore) (user_id tier : String) :
    (tier ∉ ["free", "premium", "admin"] →
      set_user_tier ts user_id tier = (false, ts) ∧
      get_user_tier (set_user_tier ts user_id tier).2 user_id = get_user_tier ts user_id ∧
      quota_for (set_user_tier ts user_id tier).2 user_id = quota_for ts user_id) ∧
    (tier ∈ ["free", "premium", "admin"] →
      (set_user_tier ts user_id tier).1 = true ∧
      (set_user_tier ts user_id tier).2 user_id = some tier) := by
  have hkeys : (RATE_LIMITS_TABLE.lookup tier).isSome = true ↔
      tier ∈ ["free", "premium", "admin"] := by
    simp only [RATE_LIMITS_TABLE, List.lookup, List.mem_cons, List.not_mem_nil, or_false]
    constructor
    · intro h
      by_cases h1 : tier = "free"
      · exact Or.inl h1
      · by_cases h2 : tier = "premium"
        · exact Or.inr (Or.inl h2)
        · by_cases h3 : tier = "admin"
          · exact Or.inr (Or.inr h3)
          · have e1 : (tier == "free") = false := beq_eq_false_iff_ne.mpr h1
            have e2 : (tier == "premium") = false := beq_eq_false_iff_ne.mpr h2
            have e3 : (tier == "admin") = false := beq_eq_false_iff_ne.mpr h3
            rw [e1, e2, e3] at h
            simp at h
    · rintro (h | h | h) <;> simp [h]
  constructor
  · intro hmem
    have hlk : (RATE_LIMITS_TABLE.lookup tier).isSome = false := by
      rcases h : (RATE_LIMITS_TABLE.lookup tier).isSome with _ | _
      · rfl
      · exact absurd (hkeys.mp h) hmem
    refine ⟨?_, ?_, ?_⟩ <;> simp [set_user_tier, hlk]
  · intro hmem
    have hlk : (RATE_LIMITS_TABLE.lookup tier).isSome = true := hkeys.mpr hmem
    refine ⟨?_, ?_⟩ <;> simp [set_user_tier, hlk, get_user_tier]

/-- Witness for C10: the unknown tier `"gold"` is rejected without a write;
the valid tier `"premium"` is written and acknowledged. -/
theorem C10_set_user_tier_validation_witness :
    set_user_tier (fun _ => none) "u1" "gold" = (false, fun _ => none) ∧
    (set_user_tier (fun _ => none) "u1" "premium").1 = true ∧
    (set_user_tier (fun _ => none) "u1" "premium").2 "u1" = some "premium" :=
  ⟨((C10_set_user_tier_validation (fun _ => none) "u1" "gold").1 (by decide)).1,
   (C10_set_user_tier_validation (fun _ => none) "u1" "premium").2 (by decide)⟩

/-- **C2 (amended).** If a store operation inside the `try` block of
`check_rate_limit` raises, the check returns `allowed = true` with an error
flag in the returned info — but the statistics counters are left unchanged:
`record_request` sits at the end of the `try` block and is skipped on the
error path. -/
theorem C2_store_failure_fail_open (tier : Tier) (w : Int) (s : RLStore)
    (st : RateLimitStatistics) :
    (check_rate_limit true tier w s st).allowed = true ∧
    (check_rate_limit true tier w s st).info.allowed = true ∧
    (check_rate_limit true tier w s st).info.error = true ∧
    (check_rate_limit true tier w s st).stats = st := by
  refine ⟨rfl, rfl, rfl, rfl⟩

/-- Counterexample to C2 as stated: on a store failure the statistics do
*not* record the request — with fresh statistics, neither the total counter
nor the per-tier counter becomes 1. -/
theorem C2_statistics_not_recorded_counterexample :
    ¬ ((check_rate_limit true Tier.free 0 emptyRLStore rlZeroStats).stats.total_requests =
          rlZeroStats.total_requests + 1 ∧
       (check_rate_limit true Tier.free 0 emptyRLStore rlZeroStats).stats.requests_by_tier
          Tier.free = rlZeroStats.requests_by_tier Tier.free + 1) := by
  intro h
  exact absurd h.1 (by simp [check_rate_limit, rlZeroStats])

/-- **C5.** For every message that classifies as `no_cache`, the response
cache performs no store operation at all: the read path records the no-cache
statistic and returns a miss without issuing a store `get`, and the write
path returns without issuing a `setex`, leaving the store unchanged. -/
theorem C5_no_cache_no_store_ops (store : CacheStore) (stats : CacheStatistics)
    (message response : String) (memory : List ChatMsg)
    (h : classify_query message = "no_cache") :
    get_cached_response store stats message memory =
      (none, record_no_cache stats "no_cache", []) ∧
    cache_response store stats message response memory = (store, stats, []) := by
  constructor <;> simp [get_cached_response, cache_response, get_ttl_for_query, h]

/-- Witness for C5 at the personalised query `"should i transfer salah"`. -/
theorem C5_no_cache_no_store_ops_witness :
    classify_query "should i transfer salah" = "no_cache" ∧
    get_cached_response emptyCacheStore cacheZeroStats "should i transfer salah" [] =
      (none, record_no_cache cacheZeroStats "no_cache", []) ∧
    cache_response emptyCacheStore cacheZeroStats "should i transfer salah" "resp" [] =
      (emptyCacheStore, cacheZeroStats, []) :=
  ⟨by decide,
   (C5_no_cache_no_store_ops emptyCacheStore cacheZeroStats
      "should i transfer salah" "resp" [] (by decide)).1,
   (C5_no_cache_no_store_ops emptyCacheStore cacheZeroStats
      "should i transfer salah" "resp" [] (by decide)).2⟩

/-- Helper: for the four classifier categories, the category segment of the
derived key recovers the category (hex digests contain no `:` — indeed the
category is read off before the first `:` after the fixed prefix). -/
theorem keyCategory_cache_key (m ctx c : String)
    (hc : c ∈ ["factual", "news", "opinion", "no_cache"]) :
    keyCategory (generate_cache_key m ctx c) = c := by
  fin_cases hc
  · have h : generate_cache_key m ctx "factual" =
        "llm_cache_factual:" ++ sha256hex (m ++ "|" ++ ctx ++ "|" ++ "factual") := rfl
    rw [h, keyCategory, String.data_append]
    have hpre : "llm_cache_factual:".data =
        ['l','l','m','_','c','a','c','h','e','_','f','a','c','t','u','a','l',':'] := rfl
    rw [hpre]
    simp [List.takeWhile]
  · have h : generate_cache_key m ctx "news" =
        "llm_cache_news:" ++ sha256hex (m ++ "|" ++ ctx ++ "|" ++ "news") := rfl
    rw [h, keyCategory, String.data_append]
    have hpre : "llm_cache_news:".data =
        ['l','l','m','_','c','a','c','h','e','_','n','e','w','s',':'] := rfl
    rw [hpre]
    simp [List.takeWhile]
  · have h : generate_cache_key m ctx "opinion" =
        "llm_cache_opinion:" ++ sha256hex (m ++ "|" ++ ctx ++ "|" ++ "opinion") := rfl
    rw [h, keyCategory, String.data_append]
    have hpre : "llm_cache_opinion:".data =
        ['l','l','m','_','c','a','c','h','e','_','o','p','i','n','i','o','n',':'] := rfl
    rw [hpre]
    simp [List.takeWhile]
  · have h : generate_cache_key m ctx "no_cache" =
        "llm_cache_no_cache:" ++ sha256hex (m ++ "|" ++ ctx ++ "|" ++ "no_cache") := rfl
    rw [h, keyCategory, String.data_append]
    have hpre : "llm_cache_no_cache:".data =
        ['l','l','m','_','c','a','c','h','e','_','n','o','_','c','a','c','h','e',':'] := rfl
    rw [hpre]
    simp [List.takeWhile]

/-- **C4.** The cache key equals
`"llm_cache_" + category + ":" + sha256hex(message + "|" + context + "|" +
category)`, where the context is the `|`-joined serialisation of up to the
last three memory turns as `T:` plus the first 100 characters of content
(`T ∈ {H, A}`); equal `(message, context, category)` give equal keys, and
keys for distinct categories (among the classifier's categories) are always
distinct. -/
theorem C4_cache_key_derivation (message : String) (memory : List ChatMsg)
    (category : String) :
    generate_cache_key message (get_conversation_context memory) category =
      "llm_cache_" ++ category ++ ":" ++
        sha256hex (message ++ "|" ++ get_conversation_context memory ++ "|" ++ category) ∧
    get_conversation_context memory =
      String.intercalate "|"
        ((memory.drop (memory.length - 3)).map (fun mm =>
          (if mm.isHuman then "H" else "A") ++ ":" ++
            String.mk (mm.content.toList.take 100))) ∧
    (∀ m2 ctx2 c2, message = m2 → get_conversation_context memory = ctx2 →
      category = c2 →
      generate_cache_key message (get_conversation_context memory) category =
        generate_cache_key m2 ctx2 c2) ∧
    (∀ c2 m2 ctx2, category ∈ ["factual", "news", "opinion", "no_cache"] →
      c2 ∈ ["factual", "news", "opinion", "no_cache"] → category ≠ c2 →
      generate_cache_key message (get_conversation_context memory) category ≠
        generate_cache_key m2 ctx2 c2) := by
  refine ⟨rfl, ?_, ?_, ?_⟩
  · unfold get_conversation_context
    by_cases h : memory.isEmpty
    · have hnil : memory = [] := List.isEmpty_iff.mp h
      subst hnil
      simp [String.intercalate]
    · simp only [h, Bool.false_eq_true, if_false]
      by_cases h3 : memory.length > 3
      · simp [h3]
      · have h0 : memory.length - 3 = 0 := by omega
        simp [h3, h0]
  · intro m2 ctx2 c2 h1 h2 h3
    rw [h1, h2, h3]
  · intro c2 m2 ctx2 hc hc2 hne heq
    have := congrArg keyCategory heq
    rw [keyCategory_cache_key _ _ _ hc, keyCategory_cache_key _ _ _ hc2] at this
    exact hne this

/-- Witness for C4: the `"factual"` and `"news"` keys for concrete inputs are
distinct, and the key formula holds at a concrete memory. -/
theorem C4_cache_key_derivation_witness :
    generate_cache_key "who won" (get_conversation_context []) "factual" ≠
      generate_cache_key "who won" "" "news" :=
  (C4_cache_key_derivation "who won" [] "factual").2.2.2 "news" "who won" ""
    (by decide) (by decide) (by decide)

/-- **C3.** The classifier returns `no_cache` whenever any personalised
pattern matches; otherwise it returns the category among
{factual, news, opinion} with the highest pattern-group match count,
preferring factual over news over opinion on ties, and returns `opinion`
when all three counts are zero.  The result depends only on the message: the
embedding is a pure function, so determinism is stated as congruence. -/
theorem C3_classifier_structure (query : String) :
    (personalizedMatch (query.toList.map Char.toLower) = true →
      classify_query query = "no_cache") ∧
    (personalizedMatch (query.toList.map Char.toLower) = false →
      ((countMatches FACTUAL_PATTERNS (query.toList.map Char.toLower) = 0 ∧
        countMatches NEWS_PATTERNS (query.toList.map Char.toLower) = 0 ∧
        countMatches OPINION_PATTERNS (query.toList.map Char.toLower) = 0) →
        classify_query query = "opinion") ∧
      ((countMatches NEWS_PATTERNS (query.toList.map Char.toLower) ≤
          countMatches FACTUAL_PATTERNS (query.toList.map Char.toLower) ∧
        countMatches OPINION_PATTERNS (query.toList.map Char.toLower) ≤
          countMatches FACTUAL_PATTERNS (query.toList.map Char.toLower) ∧
        countMatches FACTUAL_PATTERNS (query.toList.map Char.toLower) ≠ 0) →
        classify_query query = "factual") ∧
      ((countMatches FACTUAL_PATTERNS (query.toList.map Char.toLower) <
          countMatches NEWS_PATTERNS (query.toList.map Char.toLower) ∧
        countMatches OPINION_PATTERNS (query.toList.map Char.toLower) ≤
          countMatches NEWS_PATTERNS (query.toList.map Char.toLower)) →
        classify_query query = "news") ∧
      ((countMatches FACTUAL_PATTERNS (query.toList.map Char.toLower) <
          countMatches OPINION_PATTERNS (query.toList.map Char.toLower) ∧
        countMatches NEWS_PATTERNS (query.toList.map Char.toLower) <
          countMatches OPINION_PATTERNS (query.toList.map Char.toLower)) →
        classify_query query = "opinion")) ∧
    (∀ q2, query = q2 → classify_query query = classify_query q2) := by
  have main : ∀ cs : List Char,
      (personalizedMatch cs = true → classifyLower cs = "no_cache") ∧
      (personalizedMatch cs = false →
        ((countMatches FACTUAL_PATTERNS cs = 0 ∧ countMatches NEWS_PATTERNS cs = 0 ∧
          countMatches OPINION_PATTERNS cs = 0) → classifyLower cs = "opinion") ∧
        ((countMatches NEWS_PATTERNS cs ≤ countMatches FACTUAL_PATTERNS cs ∧
          countMatches OPINION_PATTERNS cs ≤ countMatches FACTUAL_PATTERNS cs ∧
          countMatches FACTUAL_PATTERNS cs ≠ 0) → classifyLower cs = "factual") ∧
        ((countMatches FACTUAL_PATTERNS cs < countMatches NEWS_PATTERNS cs ∧
          countMatches OPINION_PATTERNS cs ≤ countMatches NEWS_PATTERNS cs) →
          classifyLower cs = "news") ∧
        ((countMatches FACTUAL_PATTERNS cs < countMatches OPINION_PATTERNS cs ∧
          countMatches NEWS_PATTERNS cs < countMatches OPINION_PATTERNS cs) →
          classifyLower cs = "opinion")) := by
    intro cs
    constructor
    · intro h
      simp only [classifyLower]
      exact if_pos h
    · intro h
      have hne : ¬ (personalizedMatch cs = true) := by
        intro hh
        simp [hh] at h
      simp only [classifyLower]
      rw [if_neg hne]
      refine ⟨?_, ?_, ?_, ?_⟩ <;> intro hc <;> split_ifs <;> first | rfl | omega
  exact ⟨(main _).1, (main _).2, fun q2 h => by rw [h]⟩

/-- Witness for C3: a personalised query, an all-zero query, a factual
winner, and a tie resolved in favour of news over opinion. -/
theorem C3_classifier_structure_witness :
    classify_query "recommend a striker" = "no_cache" ∧
    classify_query "hello there" = "opinion" ∧
    classify_query "career goals" = "factual" ∧
    classify_query "latest score today" = "news" :=
  ⟨(C3_classifier_structure "recommend a striker").1 (by decide),
   ((C3_classifier_structure "hello there").2.1 (by decide)).1 (by decide),
   ((C3_classifier_structure "career goals").2.1 (by decide)).2.1 (by decide),
   ((C3_classifier_structure "latest score today").2.1 (by decide)).2.2.1 (by decide)⟩

/-- **C8 (amended).** The content-quality score is the mean of a length score
and a title score.  The length score is 1.0 for content length within
[500, 2000]; below 500 it degrades linearly as `len/500`; above 2000 it
decays as `max(0.5, 2000/len)` — a clamped reciprocal, not a linear
degradation.  The title score starts at 1.0, becomes 0.8 when the title
length is outside [20, 150], and is multiplied by 0.7 on the first
clickbait-pattern match. -/
theorem C8_content_quality_characterisation (a : NewsArticle) :
    content_quality_score a = (lengthScoreOf a + titleScoreOf a) / 2 ∧
    (500 ≤ a.content.length ∧ a.content.length ≤ 2000 → lengthScoreOf a = 1) ∧
    (a.content.length < 500 → lengthScoreOf a = (a.content.length : ℚ) / 500) ∧
    (2000 < a.content.length →
      lengthScoreOf a = max (1/2) (2000 / (a.content.length : ℚ))) ∧
    (titleScoreOf a =
      (if a.title.length < 20 ∨ a.title.length > 150 then (4 : ℚ)/5 else 1) *
        (if clickbaitMatch (a.title.toList.map Char.toLower) then (7 : ℚ)/10 else 1)) := by
  refine ⟨rfl, ?_, ?_, ?_, ?_⟩
  · intro h
    simp only [lengthScoreOf, OPTIMAL_CONTENT_LENGTH_MIN, OPTIMAL_CONTENT_LENGTH_MAX]
    rw [if_pos h]
  · intro h
    simp only [lengthScoreOf, OPTIMAL_CONTENT_LENGTH_MIN, OPTIMAL_CONTENT_LENGTH_MAX]
    rw [if_neg (by omega), if_pos h]
    norm_num
  · intro h
    simp only [lengthScoreOf, OPTIMAL_CONTENT_LENGTH_MIN, OPTIMAL_CONTENT_LENGTH_MAX]
    rw [if_neg (by omega), if_neg (by omega)]
    norm_num
  · simp only [titleScoreOf, MIN_TITLE_LENGTH, MAX_TITLE_LENGTH]
    by_cases hc : clickbaitMatch (a.title.toList.map Char.toLower)
    · rw [if_pos hc, if_pos hc]
      by_cases ht : a.title.length < 20 ∨ a.title.length > 150
      · rw [if_pos ht, CLICKBAIT_PENALTY]
      · rw [if_neg ht, CLICKBAIT_PENALTY]
    · simp only [hc, Bool.false_eq_true, if_false, mul_one]

/-- Witness for C8: the boundary lengths 499, 500, 2000 and 2001 (title fixed
at `"t"`, so the title score is 0.8 throughout). -/
theorem C8_content_quality_characterisation_witness :
    lengthScoreOf (c8Article 499) = 499/500 ∧
    lengthScoreOf (c8Article 500) = 1 ∧
    lengthScoreOf (c8Article 2000) = 1 ∧
    lengthScoreOf (c8Article 2001) = max (1/2) (2000/2001) ∧
    content_quality_score (c8Article 500) = (1 + titleScoreOf (c8Article 500)) / 2 := by
  have hlen : ∀ n, (c8Article n).content.length = n := fun n => by
    show (String.mk (List.replicate n 'a')).length = n
    rw [String.length_mk, List.length_replicate]
  have h499 := hlen 499
  have h500 := hlen 500
  have h2000 := hlen 2000
  have h2001 := hlen 2001
  refine ⟨?_, ?_, ?_, ?_, ?_⟩
  · rw [(C8_content_quality_characterisation (c8Article 499)).2.2.1
      (by rw [h499]; omega), h499]
    norm_num
  · exact (C8_content_quality_characterisation (c8Article 500)).2.1
      (by rw [h500]; omega)
  · exact (C8_content_quality_characterisation (c8Article 2000)).2.1
      (by rw [h2000]; omega)
  · rw [(C8_content_quality_characterisation (c8Article 2001)).2.2.2.1
      (by rw [h2001]; omega), h2001]
    norm_num
  · rw [content_quality_score,
      (C8_content_quality_characterisation (c8Article 500)).2.1 (by rw [h500]; omega)]

/-- Counterexample to C8 as stated: above 2000 characters the curve is not
linear — the scores at lengths 2000, 3000 and 4000 fail the midpoint test
(2·Q(3000) ≠ Q(2000) + Q(4000)). -/
theorem C8_not_linear_counterexample :
    content_quality_score (c8Article 2000) = 9/10 ∧
    content_quality_score (c8Article 3000) = 11/15 ∧
    content_quality_score (c8Article 4000) = 13/20 ∧
    ¬ (2 * content_quality_score (c8Article 3000) =
        content_quality_score (c8Article 2000) + content_quality_score (c8Article 4000)) := by
  have hlen : ∀ n, (c8Article n).content.length = n := fun n => by
    show (String.mk (List.replicate n 'a')).length = n
    rw [String.length_mk, List.length_replicate]
  have hlen2000 := hlen 2000
  have hlen3000 := hlen 3000
  have hlen4000 := hlen 4000
  have htitle : ∀ n, titleScoreOf (c8Article n) = 4/5 := by
    intro n
    simp only [titleScoreOf, c8Article, MIN_TITLE_LENGTH, MAX_TITLE_LENGTH,
      CLICKBAIT_PENALTY]
    rw [if_neg (by decide : ¬ (clickbaitMatch ("t".toList.map Char.toLower) = true)),
      if_pos (by decide : ("t".length < 20 ∨ "t".length > 150))]
  have hform : ∀ a : NewsArticle,
      lengthScoreOf a =
        if 500 ≤ a.content.length ∧ a.content.length ≤ 2000 then (1 : ℚ)
        else if a.content.length < 500 then (a.content.length : ℚ) / 500
        else max (1/2) (2000 / (a.content.length : ℚ)) := by
    intro a
    simp only [lengthScoreOf, OPTIMAL_CONTENT_LENGTH_MIN, OPTIMAL_CONTENT_LENGTH_MAX]
    norm_num
  have l2000 : lengthScoreOf (c8Article 2000) = 1 := by
    rw [hform, hlen2000, if_pos (by omega : 500 ≤ 2000 ∧ 2000 ≤ 2000)]
  have l3000 : lengthScoreOf (c8Article 3000) = 2/3 := by
    rw [hform, hlen3000, if_neg (by omega), if_neg (by omega)]
    push_cast
    rw [max_eq_right (by norm_num)]
    norm_num
  have l4000 : lengthScoreOf (c8Article 4000) = 1/2 := by
    rw [hform, hlen4000, if_neg (by omega), if_neg (by omega)]
    push_cast
    rw [max_eq_right (by norm_num)]
    norm_num
  refine ⟨?_, ?_, ?_, ?_⟩
  · rw [content_quality_score, l2000, htitle]
    norm_num
  · rw [content_quality_score, l3000, htitle]
    norm_num
  · rw [content_quality_score, l4000, htitle]
    norm_num
  · rw [content_quality_score, content_quality_score, content_quality_score,
      l2000, l3000, l4000, htitle, htitle, htitle]
    norm_num

/-- **C9.** With an empty query string and a non-empty candidate set, the
per-candidate text-relevance scoring divides by the (zero) number of query
terms: the `hybrid` run aborts with an uncaught `ZeroDivisionError` (modelled
`none`) rather than returning an empty list, while the `semantic` strategy —
which never consults text relevance — returns the candidates themselves.
This contradicts the specified boundary behaviour (empty result list, no
exception); the claim is right about the intent and the code is wrong. -/
theorem C9_empty_query_divides_by_zero :
    text_relevance_boost "" c9Candidate.article = none ∧
    enhanced_semantic_search "hybrid" (fun _ => 1) "" [c9Candidate] 5 = none ∧
    enhanced_semantic_search "semantic" (fun _ => 1) "" [c9Candidate] 5 =
      some [(c9Candidate, 4/5)] := by
  refine ⟨rfl, rfl, ?_⟩
  show some [(c9Candidate, (4:ℚ)/5 * 1)] = some [(c9Candidate, 4/5)]
  norm_num

/-- Helper: stable insertion produces a permutation. -/
theorem insertDescBy_perm {α : Type} (key : α → ℚ) (x : α) (l : List α) :
    (insertDescBy key x l).Perm (x :: l) := by
  induction l with
  | nil => exact List.Perm.refl _
  | cons y ys ih =>
    rw [insertDescBy]
    split_ifs with h
    · exact (List.Perm.cons y ih).trans (List.Perm.swap x y ys)
    · exact List.Perm.refl _

/-- Helper: the stable sort produces a permutation of its input. -/
theorem sortDescBy_perm {α : Type} (key : α → ℚ) (l : List α) :
    (sortDescBy key l).Perm l := by
  induction l with
  | nil => exact List.Perm.refl _
  | cons x xs ih =>
    exact (insertDescBy_perm key x _).trans (List.Perm.cons x ih)

/-- Helper: inserting into a descending list keeps it descending. -/
theorem insertDescBy_pairwise {α : Type} (key : α → ℚ) (x : α) (l : List α)
    (hl : l.Pairwise (fun a b => key b ≤ key a)) :
    (insertDescBy key x l).Pairwise (fun a b => key b ≤ key a) := by
  induction l with
  | nil => simp [insertDescBy]
  | cons y ys ih =>
    rw [insertDescBy]
    rcases List.pairwise_cons.mp hl with ⟨hy, hys⟩
    split_ifs with h
    · refine List.pairwise_cons.mpr ⟨?_, ih hys⟩
      intro z hz
      rcases List.mem_cons.mp ((insertDescBy_perm key x ys).mem_iff.mp hz) with rfl | hzys
      · exact le_of_lt h
      · exact hy z hzys
    · refine List.pairwise_cons.mpr ⟨?_, hl⟩
      intro z hz
      rcases List.mem_cons.mp hz with rfl | hzys
      · exact le_of_not_lt h
      · exact le_trans (hy z hzys) (le_of_not_lt h)

/-- Helper: the stable sort is descending on keys. -/
theorem sortDescBy_pairwise {α : Type} (key : α → ℚ) (l : List α) :
    (sortDescBy key l).Pairwise (fun a b => key b ≤ key a) := by
  induction l with
  | nil => simp [sortDescBy]
  | cons x xs ih => exact insertDescBy_pairwise key x _ ih

/-- Helper: insertion places the new element exactly at the head of its
equal-key class — the filter at any key value gains `x` at the front iff `x`
has that key. -/
theorem insertDescBy_filter {α : Type} (key : α → ℚ) (x : α) (l : List α) (v : ℚ) :
    (insertDescBy key x l).filter (fun z => key z == v) =
      if key x == v then x :: l.filter (fun z => key z == v)
      else l.filter (fun z => key z == v) := by
  induction l with
  | nil =>
    by_cases hxv : (key x == v) = true <;>
      simp [insertDescBy, List.filter, hxv]
  | cons y ys ih =>
    rw [insertDescBy]
    by_cases h : key x < key y
    · rw [if_pos h, List.filter_cons, List.filter_cons, ih]
      by_cases hxv : (key x == v) = true
      · have hx : key x = v := by
          have := hxv
          simpa using this
        have hyv : (key y == v) = false := by
          rw [beq_eq_false_iff_ne]
          intro hy
          rw [hx, hy] at h
          exact lt_irrefl v h
        simp [hxv, hyv]
      · have hxv' : (key x == v) = false := by
          rw [Bool.not_eq_true] at hxv
          exact hxv
        simp [hxv']
    · rw [if_neg h]
      simp [List.filter_cons]

/-- Helper: the stable sort preserves the input subsequence of every fixed
key value (equal final scores keep input order). -/
theorem sortDescBy_filter {α : Type} (key : α → ℚ) (l : List α) (v : ℚ) :
    (sortDescBy key l).filter (fun z => key z == v) =
      l.filter (fun z => key z == v) := by
  induction l with
  | nil => rfl
  | cons x xs ih =>
    rw [sortDescBy, insertDescBy_filter, List.filter_cons, ih]

/-- **C6 (amended).** Whenever the enhanced search returns a result, it is
the scored candidates sorted descending on final score and truncated to
`final_k`: for positions `i < j` the score at `i` is ≥ the score at `j`, at
most `final_k` results are returned, the sorted list is a permutation of the
scored candidates, and candidates with equal final score keep their stable
input order (the subsequence at each score value is preserved) — there is no
source-credibility or published-date tie-break. -/
theorem C6_ranker_sorted_truncated (strategy : String) (expQ : ℚ → ℚ)
    (query : String) (cands : List RankCandidate) (k : Nat)
    (out : List (RankCandidate × ℚ))
    (h : enhanced_semantic_search strategy expQ query cands k = some out) :
    (∀ i j (hi : i < out.length) (hj : j < out.length), i < j →
      (out.get ⟨j, hj⟩).2 ≤ (out.get ⟨i, hi⟩).2) ∧
    out.length ≤ k ∧
    ∃ scored : List (RankCandidate × ℚ),
      apply_relevance_scoring strategy expQ query cands = some scored ∧
      out = (sortDescBy Prod.snd scored).take k ∧
      (sortDescBy Prod.snd scored).Perm scored ∧
      (∀ v : ℚ, (sortDescBy Prod.snd scored).filter (fun z => z.2 == v) =
        scored.filter (fun z => z.2 == v)) := by
  have key : ∃ scored : List (RankCandidate × ℚ),
      apply_relevance_scoring strategy expQ query cands = some scored ∧
      out = (sortDescBy Prod.snd scored).take k := by
    rw [enhanced_semantic_search] at h
    by_cases hc : cands.isEmpty
    · rw [if_pos hc, Option.some_inj] at h
      refine ⟨[], ?_, ?_⟩
      · have : cands = [] := List.isEmpty_iff.mp hc
        rw [this]
        rfl
      · rw [← h, show sortDescBy Prod.snd ([] : List (RankCandidate × ℚ)) = [] from rfl,
          List.take_nil]
    · rw [if_neg hc] at h
      rcases happ : apply_relevance_scoring strategy expQ query cands with _ | scored
      · rw [happ] at h
        cases h
      · rw [happ] at h
        exact ⟨scored, rfl, (Option.some_inj.mp h).symm⟩
  rcases key with ⟨scored, happ, hout⟩
  have hsorted : out.Pairwise (fun a b => b.2 ≤ a.2) := by
    rw [hout]
    exact (sortDescBy_pairwise Prod.snd scored).sublist (List.take_sublist k _)
  refine ⟨?_, ?_, scored, happ, hout, sortDescBy_perm _ _, fun v => sortDescBy_filter _ _ _⟩
  · intro i j hi hj hij
    exact List.pairwise_iff_get.mp hsorted ⟨i, hi⟩ ⟨j, hj⟩ hij
  · rw [hout, List.length_take]
    exact min_le_left _ _

/-- Witness for C6: a concrete one-candidate run through the `semantic`
strategy. -/
theorem C6_ranker_sorted_truncated_witness :
    ([(espnCandidate, (1 : ℚ)/2 * 1)] : List (RankCandidate × ℚ)).length ≤ 1 :=
  (C6_ranker_sorted_truncated "semantic" (fun q => q) "x" [espnCandidate] 1
    [(espnCandidate, (1 : ℚ)/2 * 1)] rfl).2.1

/-- Counterexample to C6 as stated: two candidates with equal final score are
returned in stable input order even though the first has strictly lower
source credibility (ESPN 0.8 before BBC Sport 1.0) — the claimed
source-credibility tie-break does not exist. -/
theorem C6_stable_tie_counterexample :
    enhanced_semantic_search "semantic" (fun q => q) "x"
        [espnCandidate, bbcCandidate] 5 =
      some [(espnCandidate, (1 : ℚ)/2 * 1), (bbcCandidate, (1 : ℚ)/2 * 1)] ∧
    (espnCandidate, (1 : ℚ)/2 * 1).2 = (bbcCandidate, (1 : ℚ)/2 * 1).2 ∧
    ¬ (source_credibility bbcCandidate.article ≤
        source_credibility espnCandidate.article) := by
  have hsort : sortDescBy Prod.snd
      [(espnCandidate, (1 : ℚ)/2 * 1), (bbcCandidate, (1 : ℚ)/2 * 1)] =
      [(espnCandidate, (1 : ℚ)/2 * 1), (bbcCandidate, (1 : ℚ)/2 * 1)] := by
    rw [sortDescBy, sortDescBy, sortDescBy, insertDescBy, insertDescBy]
    rw [if_neg (lt_irrefl ((1 : ℚ)/2 * 1))]
  refine ⟨?_, rfl, ?_⟩
  · have h1 : enhanced_semantic_search "semantic" (fun q => q) "x"
        [espnCandidate, bbcCandidate] 5 =
        some ((sortDescBy Prod.snd
          [(espnCandidate, (1 : ℚ)/2 * 1), (bbcCandidate, (1 : ℚ)/2 * 1)]).take 5) := rfl
    rw [h1, hsort]
    rfl
  · have hespn : source_credibility espnCandidate.article = 4/5 := rfl
    have hbbc : source_credibility bbcCandidate.article = 1 := rfl
    rw [hespn, hbbc]
    norm_num

/-- Helper: a processing article is rejected without side effects. -/
theorem process_single_article_processing (e : Option (List ℚ)) (p : Bool)
    (a : DBArticle) (h : a.embedding_status = .processing) :
    process_single_article e p (some a) = (false, some a, []) := by
  simp [process_single_article, h]

/-- Helper: the content-hash short-circuit — an article already completed
with the same content is a success with no side effects and no change. -/
theorem process_single_article_shortcircuit (e : Option (List ℚ)) (p : Bool)
    (a : DBArticle)
    (h1 : a.content_hash = some (sha256hex (a.title ++ "\n\n" ++ a.content)))
    (h2 : a.embedding_status = .completed)
    (h3 : a.vector_embedding.isSome = true) :
    process_single_article e p (some a) = (true, some a, []) := by
  have hp : ¬ a.embedding_status = .processing := by
    rw [h2]
    intro hx
    cases hx
  simp [process_single_article, hp, h1, h2, h3]

/-- **C7.** Running ingestion a second time on an article whose title and
content are unchanged after a first successful completion is a no-op: the
first successful run leaves `embedding_status = completed`, a stored
`content_hash` equal to `sha256(title + "\n\n" + content)` and a present
embedding, and a run on such an article returns success with no re-marking,
no embedding request, no vector upsert, and no field modified. -/
theorem C7_ingestion_idempotent (a : DBArticle) (emb : List ℚ)
    (hrun : (process_single_article (some emb) true (some a)).1 = true) :
    ∃ b : DBArticle,
      (process_single_article (some emb) true (some a)).2.1 = some b ∧
      b.title = a.title ∧ b.content = a.content ∧
      b.embedding_status = .completed ∧
      b.content_hash = some (sha256hex (b.title ++ "\n\n" ++ b.content)) ∧
      b.vector_embedding.isSome = true ∧
      (∀ (e2 : Option (List ℚ)) (p2 : Bool),
        process_single_article e2 p2 (some b) = (true, some b, [])) := by
  by_cases hp : a.embedding_status = .processing
  · rw [process_single_article_processing _ _ _ hp] at hrun
    cases hrun
  · by_cases hsc : a.content_hash = some (sha256hex (a.title ++ "\n\n" ++ a.content)) ∧
        a.embedding_status = .completed ∧ a.vector_embedding.isSome = true
    · refine ⟨a, ?_, rfl, rfl, hsc.2.1, hsc.1, hsc.2.2, ?_⟩
      · rw [process_single_article_shortcircuit _ _ _ hsc.1 hsc.2.1 hsc.2.2]
      · intro e2 p2
        exact process_single_article_shortcircuit _ _ _ hsc.1 hsc.2.1 hsc.2.2
    · have hfull : process_single_article (some emb) true (some a) =
          (true,
           some { a with vector_embedding := some emb,
                         search_vector_id := some ("article_" ++ toString a.id),
                         content_hash :=
                           some (sha256hex (a.title ++ "\n\n" ++ a.content)),
                         sentiment_score :=
                           some (calculate_simple_sentiment (a.title ++ "\n\n" ++ a.content)),
                         embedding_status := .completed },
           [.commit_processing, .embed_request, .pinecone_upsert, .commit_completed]) := by
        simp only [process_single_article]
        rw [if_neg hp, if_neg ?hc]
        case hc =>
          intro hx
          exact hsc ⟨hx.1, hx.2.1, by simpa using hx.2.2⟩
        rfl
      refine ⟨updatedArticle a emb, ?_, rfl, rfl, rfl, rfl, rfl, ?_⟩
      · rw [hfull]
        rfl
      · intro e2 p2
        exact process_single_article_shortcircuit _ _ _ rfl rfl rfl

/-- Witness for C7: a fresh pending article is processed successfully once;
re-running ingestion on the stored result is a success with empty side-effect
trace and an unchanged article. -/
theorem C7_ingestion_idempotent_witness :
    ∃ b : DBArticle,
      (process_single_article (some [1]) true (some c7Article0)).2.1 = some b ∧
      (∀ (e2 : Option (List ℚ)) (p2 : Bool),
        process_single_article e2 p2 (some b) = (true, some b, [])) := by
  obtain ⟨b, h1, _, _, _, _, _, h7⟩ :=
    C7_ingestion_idempotent c7Article0 [1] (by rfl)
  exact ⟨b, h1, h7⟩

/-- Helper: the window constants as integers. -/
theorem WINDOW_DURATION_int : (WINDOW_DURATION : Int) = 86400 := rfl

/-- Helper: the sub-window duration as an integer. -/
theorem SUB_WINDOW_DURATION_int : (SUB_WINDOW_DURATION : Int) = 3600 := rfl

/-- Helper: cleanup deletes only fields strictly older than
`w - WINDOW_DURATION`, none of which is summed by a check at any
`w2 ≥ w`. -/
theorem windowSum_cleanup (s : RLStore) (w w2 : Int) (h : w ≤ w2) :
    windowSum (cleanup_old_windows s w) w2 = windowSum s w2 := by
  unfold windowSum cleanup_old_windows
  refine Finset.sum_congr rfl ?_
  intro i _
  rw [if_neg]
  rw [WINDOW_DURATION_int, SUB_WINDOW_DURATION_int]
  have : (0 : Int) ≤ (i : Int) * 3600 := by positivity
  omega

/-- Helper: an aligned sub-window start `w` within one sliding window of an
aligned later start `w2` is one of the 24 summed fields of the check at
`w2`. -/
theorem visible_aligned (w w2 : Int) (hw : (3600 : Int) ∣ w)
    (hw2 : (3600 : Int) ∣ w2) (hle : w ≤ w2) (hspan : w2 - w < 86400) :
    ∃ k : Nat, k < 24 ∧ w = w2 - 86400 + 3600 + (k : Int) * 3600 := by
  obtain ⟨c, hc⟩ := hw
  obtain ⟨d, hd⟩ := hw2
  refine ⟨(23 - (d - c)).toNat, ?_, ?_⟩ <;> omega

/-- Helper: incrementing a summed field raises the window sum by exactly
one. -/
theorem windowSum_hincrby (s : RLStore) (w w2 : Int)
    (h : ∃ k : Nat, k < 24 ∧ w = w2 - 86400 + 3600 + (k : Int) * 3600) :
    windowSum (hincrby s w) w2 = windowSum s w2 + 1 := by
  obtain ⟨k, hk, hkey⟩ := h
  unfold windowSum hincrby
  rw [WINDOW_DURATION_int, SUB_WINDOW_DURATION_int, show SUB_WINDOWS = 24 from rfl]
  have step : ∀ i ∈ Finset.range 24,
      (if w2 - 86400 + 3600 + (i : Int) * 3600 = w then
          s (w2 - 86400 + 3600 + (i : Int) * 3600) + 1
        else s (w2 - 86400 + 3600 + (i : Int) * 3600)) =
        s (w2 - 86400 + 3600 + (i : Int) * 3600) +
          (if w2 - 86400 + 3600 + (i : Int) * 3600 = w then 1 else 0) := by
    intro i _
    split_ifs <;> simp
  rw [Finset.sum_congr rfl step, Finset.sum_add_distrib]
  have single : (∑ i ∈ Finset.range 24,
      (if w2 - 86400 + 3600 + (i : Int) * 3600 = w then 1 else 0)) = 1 := by
    rw [Finset.sum_eq_single_of_mem k (Finset.mem_range.mpr hk)]
    · rw [if_pos hkey.symm]
    · intro b _ hbk
      rw [if_neg]
      intro hb
      rw [hkey] at hb
      have : (b : Int) = (k : Int) := by omega
      exact hbk (by exact_mod_cast this)
  rw [single]

/-- Helper: the store left behind by a non-failing check. -/
theorem check_rate_limit_store (tier : Tier) (w : Int) (s : RLStore)
    (st : RateLimitStatistics) :
    (check_rate_limit false tier w s st).store =
      if windowSum s w < RATE_LIMITS tier then
        hincrby (cleanup_old_windows s w) w
      else cleanup_old_windows s w := by
  simp only [check_rate_limit, Bool.false_eq_true, if_false]
  rw [windowSum_cleanup s w w le_rfl]
  by_cases h : windowSum s w < RATE_LIMITS tier
  · rw [if_pos h, if_pos (by exact decide_eq_true h)]
  · rw [if_neg h, if_neg (by simpa using h)]

/-- Helper: the reported current usage of a non-failing check. -/
theorem check_rate_limit_usage (tier : Tier) (w : Int) (s : RLStore)
    (st : RateLimitStatistics) :
    (check_rate_limit false tier w s st).info.current_usage =
      some (windowSum s w + (if windowSum s w < RATE_LIMITS tier then 1 else 0)) := by
  simp only [check_rate_limit, Bool.false_eq_true, if_false]
  rw [windowSum_cleanup s w w le_rfl]
  by_cases h : windowSum s w < RATE_LIMITS tier
  · rw [if_pos (decide_eq_true h), if_pos h]
  · rw [if_neg (by simpa using h), if_neg h]

/-- Helper: a non-failing check admits iff the summed usage is strictly
below the quota. -/
theorem check_rate_limit_allowed (tier : Tier) (w : Int) (s : RLStore)
    (st : RateLimitStatistics) :
    (check_rate_limit false tier w s st).allowed = true ↔
      windowSum s w < RATE_LIMITS tier := by
  simp only [check_rate_limit, Bool.false_eq_true, if_false]
  rw [windowSum_cleanup s w w le_rfl]
  exact decide_eq_true_iff

/-- Helper: the admitted-request bound for a sequence of checks, with the
accumulator invariant that every later check still counts at least `acc`
requests. -/
theorem runChecks_le (tier : Tier) : ∀ (ws : List Int) (s : RLStore)
    (st : RateLimitStatistics) (acc : Nat),
    (∀ x ∈ ws, (3600 : Int) ∣ x) →
    List.Pairwise (fun x y => x ≤ y ∧ y - x < 86400) ws →
    (∀ x ∈ ws, acc ≤ windowSum s x) →
    acc ≤ RATE_LIMITS tier →
    acc + (runChecks tier s st ws).2 ≤ RATE_LIMITS tier := by
  intro ws
  induction ws with
  | nil =>
    intro s st acc _ _ _ hacc
    simpa [runChecks] using hacc
  | cons w ws ih =>
    intro s st acc hdvd hpair hinv hacc
    rcases List.pairwise_cons.mp hpair with ⟨hw, hpair'⟩
    have hdvdw : (3600 : Int) ∣ w := hdvd w (List.mem_cons_self w ws)
    have hinvw : acc ≤ windowSum s w := hinv w (List.mem_cons_self w ws)
    simp only [runChecks]
    by_cases htot : windowSum s w < RATE_LIMITS tier
    · have hallow : (check_rate_limit false tier w s st).allowed = true :=
        (check_rate_limit_allowed tier w s st).mpr htot
      rw [hallow, if_pos rfl]
      have hstore : (check_rate_limit false tier w s st).store =
          hincrby (cleanup_old_windows s w) w := by
        rw [check_rate_limit_store, if_pos htot]
      have hnext : ∀ x ∈ ws, acc + 1 ≤
          windowSum (check_rate_limit false tier w s st).store x := by
        intro x hx
        rw [hstore, windowSum_hincrby _ _ _
            (visible_aligned w x hdvdw (hdvd x (List.mem_cons_of_mem w hx))
              (hw x hx).1 (hw x hx).2),
          windowSum_cleanup s w x (hw x hx).1]
        exact Nat.add_le_add_right (hinv x (List.mem_cons_of_mem w hx)) 1
      have := ih (check_rate_limit false tier w s st).store
        (check_rate_limit false tier w s st).stats (acc + 1)
        (fun x hx => hdvd x (List.mem_cons_of_mem w hx)) hpair' hnext
        (by omega)
      omega
    · have hallow : (check_rate_limit false tier w s st).allowed = false := by
        rcases hb : (check_rate_limit false tier w s st).allowed with _ | _
        · rfl
        · exact absurd ((check_rate_limit_allowed tier w s st).mp hb) htot
      rw [hallow, if_neg Bool.false_ne_true]
      have hstore : (check_rate_limit false tier w s st).store =
          cleanup_old_windows s w := by
        rw [check_rate_limit_store, if_neg htot]
      have hnext : ∀ x ∈ ws, acc ≤
          windowSum (check_rate_limit false tier w s st).store x := by
        intro x hx
        rw [hstore, windowSum_cleanup s w x (hw x hx).1]
        exact hinv x (List.mem_cons_of_mem w hx)
      have := ih (check_rate_limit false tier w s st).store
        (check_rate_limit false tier w s st).stats acc
        (fun x hx => hdvd x (List.mem_cons_of_mem w hx)) hpair' hnext hacc
      omega

/-- **C1.** A non-failing rate-limit check admits iff the summed usage over
the current sliding window is strictly below the tier's quota; with
`used = limit - 1` the request is admitted and the reported `current_usage`
becomes `limit`; with `used = limit` it is denied; and for any sequence of
checks at non-decreasing, sub-window-aligned times spanning less than one
sliding window, the number of admitted requests never exceeds the quota. -/
theorem C1_sliding_window_rate_limit (tier : Tier) (w : Int) (s : RLStore)
    (st : RateLimitStatistics) (ws : List Int) :
    ((check_rate_limit false tier w s st).allowed = true ↔
      windowSum s w < RATE_LIMITS tier) ∧
    (windowSum s w = RATE_LIMITS tier - 1 →
      (check_rate_limit false tier w s st).allowed = true ∧
      (check_rate_limit false tier w s st).info.current_usage =
        some (RATE_LIMITS tier)) ∧
    (windowSum s w = RATE_LIMITS tier →
      (check_rate_limit false tier w s st).allowed = false) ∧
    ((∀ x ∈ ws, (3600 : Int) ∣ x) →
      List.Pairwise (fun x y => x ≤ y ∧ y - x < 86400) ws →
      (runChecks tier s st ws).2 ≤ RATE_LIMITS tier) := by
  have hlim : 1 ≤ RATE_LIMITS tier := by
    cases tier <;> decide
  refine ⟨check_rate_limit_allowed tier w s st, ?_, ?_, ?_⟩
  · intro hused
    have htot : windowSum s w < RATE_LIMITS tier := by omega
    refine ⟨(check_rate_limit_allowed tier w s st).mpr htot, ?_⟩
    rw [check_rate_limit_usage, if_pos htot, hused]
    exact congrArg some (by omega)
  · intro hused
    refine Bool.eq_false_iff.mpr (fun hb => ?_)
    have := (check_rate_limit_allowed tier w s st).mp hb
    omega
  · intro hdvd hpair
    have := runChecks_le tier ws s st 0 hdvd hpair (fun x _ => Nat.zero_le _)
      (Nat.zero_le _)
    omega

/-- Witness for C1: on the free tier (quota 50), a window holding 49
requests admits the 50th with reported usage 50, a window holding 50 denies,
and a two-check sequence stays within quota. -/
theorem C1_sliding_window_rate_limit_witness :
    (check_rate_limit false Tier.free 0 c1Store49 rlZeroStats).allowed = true ∧
    (check_rate_limit false Tier.free 0 c1Store49 rlZeroStats).info.current_usage =
      some 50 ∧
    (check_rate_limit false Tier.free 0 c1Store50 rlZeroStats).allowed = false ∧
    (runChecks Tier.free emptyRLStore rlZeroStats [0, 3600]).2 ≤ 50 :=
  ⟨((C1_sliding_window_rate_limit Tier.free 0 c1Store49 rlZeroStats []).2.1
      (by decide)).1,
   ((C1_sliding_window_rate_limit Tier.free 0 c1Store49 rlZeroStats []).2.1
      (by decide)).2,
   (C1_sliding_window_rate_limit Tier.free 0 c1Store50 rlZeroStats []).2.2.1
      (by decide),
   (C1_sliding_window_rate_limit Tier.free 0 emptyRLStore rlZeroStats
      [0, 3600]).2.2.2 (by decide) (by decide)⟩

end FootballNewsDB
